import Mathlib

/-!
Verification of the PetCare RAG pipeline (src/rag_chain.py) and the
`/api/chat` endpoint (src/app.py) of the PetCare-ai repository.

Python strings are modelled as `List Char`; JSON objects returned by the
endpoint are modelled as records whose `Option` fields stand for keys that
may be absent from the object.  External collaborators (the language-model
chain, the database lookups) are passed in as explicit parameters so that
their failure modes can be expressed as `Except` values.
-/

set_option maxRecDepth 8192

namespace PetCare

/-- Python `str` is modelled as a list of characters. -/
abbrev Str := List Char

/-- The whitespace characters removed by Python `str.strip()` (ASCII range). -/
def pyWhitespace (c : Char) : Bool :=
  c = ' ' || c = '\t' || c = '\n' || c = '\r' || c = '\x0b' || c = '\x0c'

/-- Leading-whitespace removal, as in Python `str.lstrip()`. -/
def stripLeft (s : Str) : Str := s.dropWhile pyWhitespace

/-- Trailing-whitespace removal, as in Python `str.rstrip()`. -/
def stripRight (s : Str) : Str := (s.reverse.dropWhile pyWhitespace).reverse

/-- Python `str.strip()`: remove leading and trailing whitespace. -/
def strip (s : Str) : Str := stripRight (stripLeft s)

/-- A langchain `Document`: page text plus the two metadata keys the
endpoint reads (`source` and `page`), each of which may be absent. -/
structure Doc where
  page_content : Str
  msource : Option Str
  mpage : Option Int
  deriving DecidableEq

/-- A JSON scalar value: the `page` field of a source entry is either the
integer page number from the metadata or the string fallback. -/
inductive JsonVal where
  | jstr : Str → JsonVal
  | jint : Int → JsonVal
  deriving DecidableEq

/-- One entry of the `sources` array built by `chat` (src/app.py 448-452). -/
structure SourceInfo where
  content : Str
  source : Str
  page : JsonVal
  deriving DecidableEq

/-- Embeds src/app.py 448-452: one retrieved document becomes a source entry;
content is cut to 150 characters plus an ellipsis when longer than 150,
metadata falls back to defaults when absent. -/
def formatSource (doc : Doc) : SourceInfo :=
  { content :=
      if doc.page_content.length > 150 then
        doc.page_content.take 150 ++ "...".toList
      else
        doc.page_content,
    source := doc.msource.getD "Unknown".toList,
    page :=
      match doc.mpage with
      | some p => JsonVal.jint p
      | none => JsonVal.jstr "N/A".toList }

/-- A pet row as read by the chat endpoint (src/app.py 421-426). -/
structure Pet where
  name : Str
  species : Str
  breed : Option Str
  age : Option Int
  deriving DecidableEq

/-- Embeds the age part of the f-string at src/app.py 422: Python renders
`p.age if p.age else "unknown age"`, so a missing age and an age of 0 are
both falsy and print as the fallback. -/
def petAgeText (p : Pet) : Str :=
  match p.age with
  | some a => if a = 0 then "unknown age".toList else (toString a).toList
  | none => "unknown age".toList

/-- Embeds src/app.py 422-425: the description built for one pet. An empty
breed string is falsy in Python and is skipped like a missing one. -/
def petDetails (p : Pet) : Str :=
  p.name ++ " (a ".toList ++ petAgeText p ++ " year old ".toList ++ p.species
    ++ (match p.breed with
        | some b => if b = [] then [] else ", ".toList ++ b
        | none => []) ++ ")".toList

/-- Embeds src/app.py 419-428: the user-context sentence, or the empty
string when the user has no pets. -/
def buildUserContext (pets : List Pet) : Str :=
  if pets = [] then []
  else
    "User\x27s pets: ".toList
      ++ List.intercalate ", ".toList (pets.map petDetails)
      ++ ". ".toList

/-- Embeds src/app.py 414-431: the inner try/except around the database
lookups.  When the lookup raises, the handler logs and keeps the initial
empty context; when it succeeds, the context is built from the pet rows. -/
def userContextOf (lookup : Except Str (List Pet)) : Str :=
  match lookup with
  | Except.error _ => []
  | Except.ok pets => buildUserContext pets

/-- The dictionary returned by `qa_chain.invoke` as read at src/app.py
442-443: both keys are read with `.get` and may be absent. -/
structure InvokeResult where
  answer : Option Str
  context : Option (List Doc)
  deriving DecidableEq

/-- The session cookie as seen by the endpoint: an optional user id. -/
structure Session where
  user_id : Option Nat
  deriving DecidableEq

/-- The JSON body plus HTTP status produced by the chat endpoint.  Each
`body_*` field models one key of the jsonify dictionary, `none` meaning the
key is absent from the response.  `rag_queries` records the inputs passed
to `qa_chain.invoke` during the request, so that non-invocation of the
pipeline is expressible. -/
structure ChatResult where
  status : Nat
  body_error : Option Str
  body_answer : Option Str
  body_sources : Option (List SourceInfo)
  rag_queries : List Str
  deriving DecidableEq

/-- Error text of the 401 response (src/app.py 402). -/
def unauthorizedError : Str :=
  "Unauthorized - Please login to use the chatbot".toList

/-- Answer text of the 401 response (src/app.py 403). -/
def loginAnswer : Str := "Please login to chat with PawCare AI. 🔒".toList

/-- Error text of the 400 response (src/app.py 411). -/
def emptyMessageError : Str := "Message cannot be empty".toList

/-- Error text of the 500 response (src/app.py 466). -/
def processingError : Str := "An error occurred processing your request".toList

/-- Apology answer of the 500 response (src/app.py 467). -/
def apologyAnswer : Str :=
  "I apologize, but I\x27m having trouble processing your question right now. Please try again.".toList

/-- Fallback answer used when the chain result has no `answer` key
(src/app.py 442). -/
def defaultAnswer : Str := "I\x27m sorry, I couldn\x27t generate a response.".toList

/-- Embeds the chat endpoint, src/app.py 393-468.
`qa` is `qa_chain.invoke` (an `Except.error` models a raised exception),
`lookup` is the combined result of the `User`/`Pet` database queries, and
`message` is the optional `message` key of the request JSON. -/
def chat (qa : Str → Except Str InvokeResult) (sess : Session)
    (lookup : Except Str (List Pet)) (message : Option Str) : ChatResult :=
  match sess.user_id with
  | none =>
      { status := 401, body_error := some unauthorizedError,
        body_answer := some loginAnswer, body_sources := none,
        rag_queries := [] }
  | some _ =>
      let user_input := strip (message.getD [])
      if user_input = [] then
        { status := 400, body_error := some emptyMessageError,
          body_answer := none, body_sources := none, rag_queries := [] }
      else
        let enhanced_query := userContextOf lookup ++ user_input
        match qa enhanced_query with
        | Except.error _ =>
            { status := 500, body_error := some processingError,
              body_answer := some apologyAnswer, body_sources := none,
              rag_queries := [enhanced_query] }
        | Except.ok resp =>
            { status := 200, body_error := none,
              body_answer := some (resp.answer.getD defaultAnswer),
              body_sources :=
                some (((resp.context.getD []).take 2).map formatSource),
              rag_queries := [enhanced_query] }

/-- Modelled from the spec: the Chunker configured at src/rag_chain.py 28-34
is langchain `RecursiveCharacterTextSplitter` (chunk_size 1000,
chunk_overlap 200), third-party code not present in src/.  Following the
Chunker contract of the spec (§4.2, §8): a page of length at most 1000
yields exactly one chunk equal to the page text; a longer page is cut into
chunks of length at most 1000 such that consecutive chunks overlap in 200
characters. -/
def chunkText (s : Str) : List Str :=
  if _h : s.length ≤ 1000 then [s]
  else s.take 1000 :: chunkText (s.drop 800)
termination_by s.length
decreasing_by simp only [List.length_drop]; omega

/-- Modelled from the spec: `text_splitter.split_documents` (src/rag_chain.py
34) is third-party code; per the spec (§4.2) every chunk inherits the
provenance metadata of the page it was cut from. -/
def splitDocuments (docs : List Doc) : List Doc :=
  docs.flatMap fun d =>
    (chunkText d.page_content).map fun t =>
      { page_content := t, msource := d.msource, mpage := d.mpage }

/-- The initialized retrieval chain: the embedder, the built vector index
(one entry per chunk, pairing the chunk with its embedding vector), and the
retriever's `k` (src/rag_chain.py 40-47). -/
structure RagChain where
  embed : Str → List Int
  index : List (Doc × List Int)
  k : Nat

/-- Inner-product similarity between two embedding vectors. -/
def dot : List Int → List Int → Int
  | [], _ => 0
  | _ :: _, [] => 0
  | a :: as, b :: bs => a * b + dot as bs

/-- Stable insertion into a score-descending list: an element moves ahead
only of strictly lower scores, so ties keep insertion order. -/
def insertScored (x : Doc × Int) : List (Doc × Int) → List (Doc × Int)
  | [] => [x]
  | y :: ys => if x.2 > y.2 then x :: y :: ys else y :: insertScored x ys

/-- Modelled from the spec: FAISS similarity search (src/rag_chain.py 41-47)
is third-party code; per the spec (§4.4) `search` returns the `k` entries
most similar to the query vector, descending by score, ties kept in
insertion order. -/
def search (index : List (Doc × List Int)) (qv : List Int) (k : Nat) :
    List Doc :=
  (((index.map fun e => (e.1, dot e.2 qv)).foldl
      (fun acc x => insertScored x acc) []).take k).map Prod.fst

/-- Modelled from the spec: the retriever (src/rag_chain.py 44-47, spec
§4.5) embeds the incoming query itself and searches the index with the
configured `k`. -/
def retrieve (c : RagChain) (q : Str) : List Doc :=
  search c.index (c.embed q) c.k

/-- Embeds src/rag_chain.py 10-91: load result `docs` comes in as a
parameter (the loader is third-party), the zero-document check raises
`ValueError`, and the except clause re-raises, so the error propagates; on
success the documents are chunked, embedded, indexed, and a chain with a
top-4 retriever is returned. -/
def initialize_rag_chain (embed : Str → List Int) (docs : List Doc) :
    Except Str RagChain :=
  if docs = [] then
    Except.error "No PDF documents found in data/ folder".toList
  else
    let split_docs := splitDocuments docs
    Except.ok
      { embed := embed,
        index := split_docs.map fun c => (c, embed c.page_content),
        k := 4 }

/-- The module-level state built at import time (src/app.py 34). -/
structure AppState where
  qa_chain : RagChain

/-- Embeds src/app.py 30-39: `qa_chain = initialize_rag_chain()` runs at
module import, before any route is served; a raised error aborts startup
and the app never begins accepting requests. -/
def appStartup (embed : Str → List Int) (docs : List Doc) :
    Except Str AppState :=
  match initialize_rag_chain embed docs with
  | Except.error e => Except.error e
  | Except.ok c => Except.ok { qa_chain := c }

/-- Branch lemma: a logged-in request whose message strips to the empty
string gets the 400 rejection of src/app.py 410-411 and the chain is not
invoked. -/
theorem chat_eq_of_empty (qa : Str → Except Str InvokeResult) (sess : Session)
    (uid : Nat) (lookup : Except Str (List Pet)) (message : Option Str)
    (hu : sess.user_id = some uid)
    (hm : strip (message.getD []) = []) :
    chat qa sess lookup message =
      { status := 400, body_error := some emptyMessageError,
        body_answer := none, body_sources := none, rag_queries := [] } := by
  obtain ⟨su⟩ := sess
  cases su with
  | none => exact absurd hu (by simp)
  | some u =>
    simp only [chat]
    rw [if_pos hm]

/-- Branch lemma: a logged-in request with a non-empty message whose chain
invocation raises gets the 500 degraded response of src/app.py 461-468. -/
theorem chat_eq_of_err (qa : Str → Except Str InvokeResult) (sess : Session)
    (uid : Nat) (lookup : Except Str (List Pet)) (message : Option Str)
    (e : Str)
    (hu : sess.user_id = some uid)
    (hm : ¬ strip (message.getD []) = [])
    (hq : qa (userContextOf lookup ++ strip (message.getD []))
            = Except.error e) :
    chat qa sess lookup message =
      { status := 500, body_error := some processingError,
        body_answer := some apologyAnswer, body_sources := none,
        rag_queries := [userContextOf lookup ++ strip (message.getD [])] } := by
  obtain ⟨su⟩ := sess
  cases su with
  | none => exact absurd hu (by simp)
  | some u =>
    simp only [chat]
    rw [if_neg hm, hq]

/-- Branch lemma: a logged-in request with a non-empty message whose chain
invocation succeeds gets the 200 response of src/app.py 441-459. -/
theorem chat_eq_of_ok (qa : Str → Except Str InvokeResult) (sess : Session)
    (uid : Nat) (lookup : Except Str (List Pet)) (message : Option Str)
    (resp : InvokeResult)
    (hu : sess.user_id = some uid)
    (hm : ¬ strip (message.getD []) = [])
    (hq : qa (userContextOf lookup ++ strip (message.getD []))
            = Except.ok resp) :
    chat qa sess lookup message =
      { status := 200, body_error := none,
        body_answer := some (resp.answer.getD defaultAnswer),
        body_sources :=
          some (((resp.context.getD []).take 2).map formatSource),
        rag_queries := [userContextOf lookup ++ strip (message.getD [])] } := by
  obtain ⟨su⟩ := sess
  cases su with
  | none => exact absurd hu (by simp)
  | some u =>
    simp only [chat]
    rw [if_neg hm, hq]

/-- C1, counterexample: when the chain invocation raises, the 500 response
of src/app.py 465-468 carries the fixed apology answer but no `sources` key
at all, so the claimed empty `sources` list is absent from the response. -/
theorem C1_counterexample :
    (chat (fun _ => Except.error "boom".toList) ⟨some 1⟩ (Except.ok [])
        (some "hi".toList)).body_answer = some apologyAnswer
    ∧ ¬ (chat (fun _ => Except.error "boom".toList) ⟨some 1⟩ (Except.ok [])
        (some "hi".toList)).body_sources = some [] := by
  exact ⟨by decide, by decide⟩

/-- C1 (amended): if the chain invocation raises, then for every logged-in
request with a non-empty message the chat operation returns HTTP 500 with
the fixed apology answer and an error field, the response has no `sources`
field, and the raw exception is never propagated to the caller. -/
theorem C1_degraded_response (qa : Str → Except Str InvokeResult)
    (sess : Session) (uid : Nat) (lookup : Except Str (List Pet))
    (message : Option Str) (e : Str)
    (hu : sess.user_id = some uid)
    (hm : ¬ strip (message.getD []) = [])
    (hq : qa (userContextOf lookup ++ strip (message.getD []))
            = Except.error e) :
    (chat qa sess lookup message).status = 500
    ∧ (chat qa sess lookup message).body_answer = some apologyAnswer
    ∧ (chat qa sess lookup message).body_error = some processingError
    ∧ (chat qa sess lookup message).body_sources = none := by
  rw [chat_eq_of_err qa sess uid lookup message e hu hm hq]
  exact ⟨rfl, rfl, rfl, rfl⟩

/-- C1, witness at a concrete failing chain. -/
theorem C1_witness :
    (chat (fun _ => Except.error "kaput".toList) ⟨some 1⟩ (Except.ok [])
        (some "hello".toList)).status = 500
    ∧ (chat (fun _ => Except.error "kaput".toList) ⟨some 1⟩ (Except.ok [])
        (some "hello".toList)).body_answer = some apologyAnswer
    ∧ (chat (fun _ => Except.error "kaput".toList) ⟨some 1⟩ (Except.ok [])
        (some "hello".toList)).body_error = some processingError
    ∧ (chat (fun _ => Except.error "kaput".toList) ⟨some 1⟩ (Except.ok [])
        (some "hello".toList)).body_sources = none :=
  C1_degraded_response (fun _ => Except.error "kaput".toList) ⟨some 1⟩ 1
    (Except.ok []) (some "hello".toList) "kaput".toList rfl (by decide) rfl

/-- C2: for every successful chat request, however many chunks the chain
returns, the `sources` list of the response is exactly the first two
retrieved chunks in retrieval order (mapped to source entries) and has at
most 2 entries (src/app.py 446-452). -/
theorem C2_source_cap (qa : Str → Except Str InvokeResult) (sess : Session)
    (uid : Nat) (lookup : Except Str (List Pet)) (message : Option Str)
    (resp : InvokeResult)
    (hu : sess.user_id = some uid)
    (hm : ¬ strip (message.getD []) = [])
    (hq : qa (userContextOf lookup ++ strip (message.getD []))
            = Except.ok resp) :
    (chat qa sess lookup message).body_sources
      = some (((resp.context.getD []).take 2).map formatSource)
    ∧ (((resp.context.getD []).take 2).map formatSource).length ≤ 2 := by
  constructor
  · rw [chat_eq_of_ok qa sess uid lookup message resp hu hm hq]
  · simp only [List.length_map, List.length_take]
    exact min_le_left _ _

/-- C2, witness: four retrieved chunks are cut down to the first two. -/
theorem C2_witness :
    (chat (fun _ => Except.ok ⟨some "ans".toList,
          some [⟨"c1".toList, none, none⟩, ⟨"c2".toList, none, none⟩,
                ⟨"c3".toList, none, none⟩, ⟨"c4".toList, none, none⟩]⟩)
        ⟨some 1⟩ (Except.ok []) (some "hi there".toList)).body_sources
      = some ((([⟨"c1".toList, none, none⟩, ⟨"c2".toList, none, none⟩,
                ⟨"c3".toList, none, none⟩, ⟨"c4".toList, none, none⟩] :
            List Doc).take 2).map formatSource)
    ∧ ((([⟨"c1".toList, none, none⟩, ⟨"c2".toList, none, none⟩,
                ⟨"c3".toList, none, none⟩, ⟨"c4".toList, none, none⟩] :
            List Doc).take 2).map formatSource).length ≤ 2 :=
  C2_source_cap
    (fun _ => Except.ok ⟨some "ans".toList,
        some [⟨"c1".toList, none, none⟩, ⟨"c2".toList, none, none⟩,
              ⟨"c3".toList, none, none⟩, ⟨"c4".toList, none, none⟩]⟩)
    ⟨some 1⟩ 1 (Except.ok []) (some "hi there".toList)
    ⟨some "ans".toList,
        some [⟨"c1".toList, none, none⟩, ⟨"c2".toList, none, none⟩,
              ⟨"c3".toList, none, none⟩, ⟨"c4".toList, none, none⟩]⟩
    rfl (by decide) rfl

/-- C3: a retrieved chunk whose text has length 200 produces a source entry
whose content is the first 150 characters followed by an ellipsis (length
153), and a chunk whose text has length 100 is passed through unmodified
(src/app.py 447-452). -/
theorem C3_truncation (d1 d2 : Doc)
    (h1 : d1.page_content.length = 200)
    (h2 : d2.page_content.length = 100) :
    ((formatSource d1).content.length = 153
      ∧ (formatSource d1).content = d1.page_content.take 150 ++ "...".toList)
    ∧ (formatSource d2).content = d2.page_content := by
  refine ⟨⟨?_, ?_⟩, ?_⟩
  · simp [formatSource, h1, List.length_append, List.length_take,
      show ("...".toList).length = 3 from rfl]
  · simp [formatSource, h1]
  · simp [formatSource, h2]

/-- C3, witness at texts of lengths 200 and 100. -/
theorem C3_witness :
    ((formatSource ⟨List.replicate 200 'a', none, none⟩).content.length = 153
      ∧ (formatSource ⟨List.replicate 200 'a', none, none⟩).content
          = (List.replicate 200 'a').take 150 ++ "...".toList)
    ∧ (formatSource ⟨List.replicate 100 'b', none, none⟩).content
        = List.replicate 100 'b' :=
  C3_truncation ⟨List.replicate 200 'a', none, none⟩
    ⟨List.replicate 100 'b', none, none⟩ (by simp) (by simp)

/-- C4, counterexample: a retrieved chunk of 200 characters yields a source
entry whose content has 153 characters, exceeding the claimed 150-character
bound (the code appends a 3-character ellipsis after the 150-character cut,
src/app.py 449). -/
theorem C4_counterexample :
    (((chat (fun _ => Except.ok ⟨some "ok".toList,
          some [⟨List.replicate 200 'c', none, none⟩]⟩) ⟨some 1⟩
        (Except.ok []) (some "hey".toList)).body_sources.getD []).map
      fun s => s.content.length) = [153]
    ∧ ¬ (153 ≤ 150) := by
  exact ⟨by decide, by decide⟩

/-- C4 (amended): for every retrieved chunk, the content field of the
corresponding source entry has at most 153 characters (150 characters of
text plus the 3-character ellipsis). -/
theorem C4_content_le_153 (doc : Doc) :
    (formatSource doc).content.length ≤ 153 := by
  by_cases h : doc.page_content.length > 150
  · simp only [formatSource, if_pos h, List.length_append, List.length_take,
      show ("...".toList).length = 3 from rfl]
    omega
  · simp only [formatSource, if_neg h]
    omega

/-- C5: a loader result with zero documents makes `initialize_rag_chain`
return the propagated `ValueError` (src/rag_chain.py 21-22, 89-91), so the
module-level startup of src/app.py 34 fails and the app never becomes
ready to accept queries. -/
theorem C5_startup_fatality (embed : Str → List Int) (docs : List Doc)
    (h : docs = []) :
    initialize_rag_chain embed docs
        = Except.error "No PDF documents found in data/ folder".toList
    ∧ appStartup embed docs
        = Except.error "No PDF documents found in data/ folder".toList := by
  subst h
  exact ⟨rfl, rfl⟩

/-- C5, witness at the empty corpus. -/
theorem C5_witness :
    initialize_rag_chain (fun _ => []) []
        = Except.error "No PDF documents found in data/ folder".toList
    ∧ appStartup (fun _ => []) []
        = Except.error "No PDF documents found in data/ folder".toList :=
  C5_startup_fatality (fun _ => []) [] rfl

/-- C6, counterexample: the endpoint strips the message before building the
query (src/app.py 408, 434), so for a user with no pets and the raw message
" hi " the query given to the chain is "hi", not the raw message. -/
theorem C6_counterexample :
    (chat (fun _ => Except.ok ⟨some "ans".toList, some []⟩) ⟨some 1⟩
        (Except.ok []) (some " hi ".toList)).rag_queries = ["hi".toList]
    ∧ ¬ ("hi".toList = " hi ".toList) := by
  exact ⟨by decide, by decide⟩

/-- C6 (amended): for every chat request the query given to the RAG chain
equals the user-context sentence concatenated with the whitespace-stripped
user message; when the user has no pets the context is empty and the query
equals the stripped message (src/app.py 413-439). -/
theorem C6_enhanced_query (qa : Str → Except Str InvokeResult)
    (sess : Session) (uid : Nat) (pets : List Pet) (message : Option Str)
    (hu : sess.user_id = some uid)
    (hm : ¬ strip (message.getD []) = []) :
    (chat qa sess (Except.ok pets) message).rag_queries
      = [buildUserContext pets ++ strip (message.getD [])]
    ∧ (pets = [] →
        (chat qa sess (Except.ok pets) message).rag_queries
          = [strip (message.getD [])]) := by
  have key : (chat qa sess (Except.ok pets) message).rag_queries
      = [userContextOf (Except.ok pets) ++ strip (message.getD [])] := by
    cases hq : qa (userContextOf (Except.ok pets)
        ++ strip (message.getD [])) with
    | error e =>
        rw [chat_eq_of_err qa sess uid (Except.ok pets) message e hu hm hq]
    | ok r =>
        rw [chat_eq_of_ok qa sess uid (Except.ok pets) message r hu hm hq]
  refine ⟨key, ?_⟩
  intro hp
  subst hp
  rw [key]
  simp [userContextOf, buildUserContext]

/-- C6, witness: a user with no pets and an already-stripped message. -/
theorem C6_witness :
    (chat (fun _ => Except.ok ⟨some "ans".toList, some []⟩) ⟨some 1⟩
        (Except.ok []) (some "walks".toList)).rag_queries
      = [strip "walks".toList] :=
  (C6_enhanced_query (fun _ => Except.ok ⟨some "ans".toList, some []⟩)
    ⟨some 1⟩ 1 [] (some "walks".toList) rfl (by decide)).2 rfl

/-- Every chunk produced by the chunker has at most 1000 characters. -/
theorem chunkText_all_le (s : Str) : ∀ c ∈ chunkText s, c.length ≤ 1000 := by
  by_cases h : s.length ≤ 1000
  · intro c hc
    rw [chunkText, dif_pos h] at hc
    simp only [List.mem_singleton] at hc
    subst hc
    exact h
  · intro c hc
    rw [chunkText, dif_neg h] at hc
    simp only [List.mem_cons] at hc
    rcases hc with hc | hc
    · subst hc
      simp [List.length_take]
    · exact chunkText_all_le (s.drop 800) c hc
termination_by s.length
decreasing_by simp only [List.length_drop]; omega

/-- C7: for a page text of length at most 1000 the chunker yields exactly
one chunk equal to the page text, and every chunk it ever yields has at
most 1000 characters (spec-modelled chunker for the splitter configured at
src/rag_chain.py 28-34). -/
theorem C7_chunking (s : Str) :
    (s.length ≤ 1000 → chunkText s = [s])
    ∧ ∀ c ∈ chunkText s, c.length ≤ 1000 := by
  refine ⟨?_, chunkText_all_le s⟩
  intro h
  rw [chunkText, dif_pos h]

/-- C7, witness at a short page. -/
theorem C7_witness :
    (List.replicate 5 'a').length ≤ 1000
    ∧ chunkText (List.replicate 5 'a') = [List.replicate 5 'a'] := by
  refine ⟨by simp, (C7_chunking (List.replicate 5 'a')).1 (by simp)⟩

/-- C8: with a fixed index and embedder, two retrievals with the same query
string return the same ordered chunk sequence (spec-modelled retriever for
src/rag_chain.py 40-47; the embedder and index are pure values, so
retrieval is a function of its input). -/
theorem C8_retrieval_deterministic (c : RagChain) (q1 q2 : Str)
    (h : q1 = q2) : retrieve c q1 = retrieve c q2 := by
  rw [h]

/-- C8, witness at a one-entry index. -/
theorem C8_witness :
    retrieve ⟨fun _ => [1], [(⟨"dogs".toList, none, none⟩, [1])], 4⟩
        "walk".toList
      = retrieve ⟨fun _ => [1], [(⟨"dogs".toList, none, none⟩, [1])], 4⟩
        "walk".toList :=
  C8_retrieval_deterministic
    ⟨fun _ => [1], [(⟨"dogs".toList, none, none⟩, [1])], 4⟩
    "walk".toList "walk".toList rfl

/-- C9: a logged-in request whose message is empty or whitespace-only is
rejected with HTTP 400 and the error "Message cannot be empty", and the
RAG chain is never invoked (src/app.py 407-411). -/
theorem C9_empty_message (qa : Str → Except Str InvokeResult)
    (sess : Session) (uid : Nat) (lookup : Except Str (List Pet))
    (message : Option Str)
    (hu : sess.user_id = some uid)
    (hm : strip (message.getD []) = []) :
    (chat qa sess lookup message).status = 400
    ∧ (chat qa sess lookup message).body_error = some emptyMessageError
    ∧ (chat qa sess lookup message).rag_queries = [] := by
  rw [chat_eq_of_empty qa sess uid lookup message hu hm]
  exact ⟨rfl, rfl, rfl⟩

/-- C9, witness at a whitespace-only message. -/
theorem C9_witness :
    (chat (fun _ => Except.ok ⟨none, none⟩) ⟨some 2⟩ (Except.ok [])
        (some "   ".toList)).status = 400
    ∧ (chat (fun _ => Except.ok ⟨none, none⟩) ⟨some 2⟩ (Except.ok [])
        (some "   ".toList)).body_error = some emptyMessageError
    ∧ (chat (fun _ => Except.ok ⟨none, none⟩) ⟨some 2⟩ (Except.ok [])
        (some "   ".toList)).rag_queries = [] :=
  C9_empty_message (fun _ => Except.ok ⟨none, none⟩) ⟨some 2⟩ 2
    (Except.ok []) (some "   ".toList) rfl (by decide)

/-- C10, counterexample: even with a failed context lookup the endpoint
submits the stripped message, not the raw one, to the chain (src/app.py
408, 434), so the claimed equality with the raw message fails at " q ". -/
theorem C10_counterexample :
    (chat (fun _ => Except.ok ⟨some "ans".toList, some []⟩) ⟨some 1⟩
        (Except.error "db down".toList) (some " q ".toList)).rag_queries
      = ["q".toList]
    ∧ ¬ ("q".toList = " q ".toList) := by
  exact ⟨by decide, by decide⟩

/-- C10 (amended): if the user/pet lookup raises, the request is not
failed: the context stays empty, the query submitted to the chain is the
whitespace-stripped user message, and a normal answer with formatted
sources is produced (src/app.py 414-459). -/
theorem C10_context_failure (qa : Str → Except Str InvokeResult)
    (sess : Session) (uid : Nat) (e : Str) (message : Option Str)
    (resp : InvokeResult)
    (hu : sess.user_id = some uid)
    (hm : ¬ strip (message.getD []) = [])
    (hq : qa (strip (message.getD [])) = Except.ok resp) :
    (chat qa sess (Except.error e) message).rag_queries
        = [strip (message.getD [])]
    ∧ (chat qa sess (Except.error e) message).status = 200
    ∧ (chat qa sess (Except.error e) message).body_answer
        = some (resp.answer.getD defaultAnswer)
    ∧ (chat qa sess (Except.error e) message).body_sources
        = some (((resp.context.getD []).take 2).map formatSource) := by
  have hq' : qa (userContextOf (Except.error e) ++ strip (message.getD []))
      = Except.ok resp := by
    simpa [userContextOf] using hq
  rw [chat_eq_of_ok qa sess uid (Except.error e) message resp hu hm hq']
  refine ⟨?_, rfl, rfl, rfl⟩
  simp [userContextOf]

/-- C10, witness: a failing lookup with a successful chain call. -/
theorem C10_witness :
    (chat (fun _ => Except.ok ⟨some "ans".toList, some []⟩) ⟨some 3⟩
        (Except.error "lookup failed".toList)
        (some "food".toList)).rag_queries = ["food".toList]
    ∧ (chat (fun _ => Except.ok ⟨some "ans".toList, some []⟩) ⟨some 3⟩
        (Except.error "lookup failed".toList)
        (some "food".toList)).status = 200
    ∧ (chat (fun _ => Except.ok ⟨some "ans".toList, some []⟩) ⟨some 3⟩
        (Except.error "lookup failed".toList)
        (some "food".toList)).body_answer = some "ans".toList
    ∧ (chat (fun _ => Except.ok ⟨some "ans".toList, some []⟩) ⟨some 3⟩
        (Except.error "lookup failed".toList)
        (some "food".toList)).body_sources = some [] :=
  C10_context_failure (fun _ => Except.ok ⟨some "ans".toList, some []⟩)
    ⟨some 3⟩ 3 "lookup failed".toList (some "food".toList)
    ⟨some "ans".toList, some []⟩ rfl (by decide) rfl

end PetCare
